import Mathlib

/-!
Verification of the Base64 File Converter (src/base64converter.py).

The program is a single-window desktop utility built around four event
handlers on one mutable object:

  * `browse_file`       — file-open dialog result lands in `file_path`,
                          enables the convert button (lines 137-152);
  * `convert_file`      — reads the selected file, stores the Base64
                          rendering in `current_b64`, shows it in the text
                          widget, enables copy/save (lines 154-173);
  * `copy_to_clipboard` — copies `current_b64` if non-empty (lines 175-178);
  * `save_base64`       — save dialog, writes `current_b64` (lines 180-194).

The embedding models the widget-visible state as a record `AppState`,
the outside world (dialogs, file reads/writes) as explicit inputs, and
side channels (message boxes, clipboard, written files) as an `Effect`
list returned alongside the new state.  `base64.b64encode` from the
Python standard library is embedded by the standard RFC 4648 algorithm
over byte lists (`b64encodeList`); a decoder `b64decodeList` is defined
to state the round-trip property.
-/

namespace Base64Converter

/-- Standard Base64 alphabet character for a 6-bit value
(RFC 4648 table, as used by Python `base64.b64encode`):
0-25 ↦ A-Z, 26-51 ↦ a-z, 52-61 ↦ 0-9, 62 ↦ plus, 63 ↦ slash. -/
def b64Char (n : Nat) : Char :=
  if n < 26 then Char.ofNat (65 + n)
  else if n < 52 then Char.ofNat (97 + (n - 26))
  else if n < 62 then Char.ofNat (48 + (n - 52))
  else if n = 62 then '+'
  else '/'

/-- Base64 encoding of a byte list, three input bytes to four output
characters, with the standard one- and two-byte tails padded by "=".
This embeds the semantics of `base64.b64encode` (line 159 of the source). -/
def b64encodeList : List Nat → List Char
  | a :: b :: c :: rest =>
      b64Char (a / 4) :: b64Char (a % 4 * 16 + b / 16) ::
      b64Char (b % 16 * 4 + c / 64) :: b64Char (c % 64) :: b64encodeList rest
  | [a, b] =>
      [b64Char (a / 4), b64Char (a % 4 * 16 + b / 16), b64Char (b % 16 * 4), '=']
  | [a] =>
      [b64Char (a / 4), b64Char (a % 4 * 16), '=', '=']
  | [] => []

/-- Value of a Base64 alphabet character, `none` for characters outside
the alphabet. -/
def b64CharVal (c : Char) : Option Nat :=
  if 65 ≤ c.toNat ∧ c.toNat ≤ 90 then some (c.toNat - 65)
  else if 97 ≤ c.toNat ∧ c.toNat ≤ 122 then some (c.toNat - 97 + 26)
  else if 48 ≤ c.toNat ∧ c.toNat ≤ 57 then some (c.toNat - 48 + 52)
  else if c = '+' then some 62
  else if c = '/' then some 63
  else none

/-- Standard Base64 decoding of a character list: groups of four
characters, the last group possibly padded by one or two "=". -/
def b64decodeList : List Char → Option (List Nat)
  | [] => some []
  | c1 :: c2 :: c3 :: c4 :: rest => do
      let v1 ← b64CharVal c1
      let v2 ← b64CharVal c2
      if c3 = '=' then
        if c4 = '=' ∧ rest = [] then pure [v1 * 4 + v2 / 16] else none
      else do
        let v3 ← b64CharVal c3
        if c4 = '=' then
          if rest = [] then pure [v1 * 4 + v2 / 16, v2 % 16 * 16 + v3 / 4] else none
        else do
          let v4 ← b64CharVal c4
          let tail ← b64decodeList rest
          pure ((v1 * 4 + v2 / 16) :: (v2 % 16 * 16 + v3 / 4) :: (v3 % 4 * 64 + v4) :: tail)
  | _ => none

/-- Base64 encoding of bytes rendered as text, the composition
`base64.b64encode(data).decode("utf-8")` from line 159 of the source
(the output characters are all ASCII, so the UTF-8 rendering is the
character-for-character string). -/
def b64encode (data : List Nat) : String :=
  String.mk (b64encodeList data)

/-- Base64 decoding of a string. -/
def b64decode (s : String) : Option (List Nat) :=
  b64decodeList s.data

theorem b64CharVal_b64Char : ∀ n < 64, b64CharVal (b64Char n) = some n := by
  decide

theorem b64Char_ne_pad : ∀ n < 64, b64Char n ≠ '=' := by
  decide

theorem b64decodeList_b64encodeList (data : List Nat) :
    (∀ x ∈ data, x < 256) → b64decodeList (b64encodeList data) = some data := by
  induction data using b64encodeList.induct with
  | case1 a b c rest ih =>
      intro h
      have ha : a < 256 := h a (by simp)
      have hb : b < 256 := h b (by simp)
      have hc : c < 256 := h c (by simp)
      have h1 := b64CharVal_b64Char (a / 4) (by omega)
      have h2 := b64CharVal_b64Char (a % 4 * 16 + b / 16) (by omega)
      have h3 := b64CharVal_b64Char (b % 16 * 4 + c / 64) (by omega)
      have h4 := b64CharVal_b64Char (c % 64) (by omega)
      have n3 := b64Char_ne_pad (b % 16 * 4 + c / 64) (by omega)
      have n4 := b64Char_ne_pad (c % 64) (by omega)
      have htail := ih (fun x hx => h x (by simp [hx]))
      simp only [b64encodeList, b64decodeList, h1, h2, h3, h4, htail,
        Option.bind_eq_bind, Option.some_bind, if_neg n3, if_neg n4]
      simp only [Option.pure_def, Option.some.injEq, List.cons.injEq]
      exact ⟨by omega, by omega, by omega, trivial⟩
  | case2 a b =>
      intro h
      have ha : a < 256 := h a (by simp)
      have hb : b < 256 := h b (by simp)
      have h1 := b64CharVal_b64Char (a / 4) (by omega)
      have h2 := b64CharVal_b64Char (a % 4 * 16 + b / 16) (by omega)
      have h3 := b64CharVal_b64Char (b % 16 * 4) (by omega)
      have n3 := b64Char_ne_pad (b % 16 * 4) (by omega)
      simp only [b64encodeList, b64decodeList, h1, h2, h3,
        Option.bind_eq_bind, Option.some_bind, if_neg n3, if_pos rfl]
      simp only [ite_true, Option.pure_def, Option.some.injEq, List.cons.injEq]
      exact ⟨by omega, by omega, trivial⟩
  | case3 a =>
      intro h
      have ha : a < 256 := h a (by simp)
      have h1 := b64CharVal_b64Char (a / 4) (by omega)
      have h2 := b64CharVal_b64Char (a % 4 * 16) (by omega)
      simp only [b64encodeList, b64decodeList, h1, h2,
        Option.bind_eq_bind, Option.some_bind, if_pos rfl]
      simp only [and_self, ite_true, Option.pure_def, Option.some.injEq, List.cons.injEq]
      exact ⟨by omega, trivial⟩
  | case4 =>
      intro _
      simp [b64encodeList, b64decodeList]

theorem b64decode_b64encode (data : List Nat) :
    (∀ x ∈ data, x < 256) → b64decode (b64encode data) = some data :=
  fun h => b64decodeList_b64encodeList data h

/-- Status-bar message, one constructor per `update_status` call site
(and one for the initial label text "Select a file to begin").
The `converted` message carries the data the format string uses (line 170:
file size and character count); `ready`/`saved` carry the basename shown. -/
inductive Status where
  | initial : Status
  | ready (basename : String) : Status
  | converted (sizeBytes : Nat) (b64Length : Nat) : Status
  | copied : Status
  | saved (basename : String) : Status
deriving DecidableEq

/-- Observable side effects of the handlers: error message boxes
(`messagebox.showerror`), the clipboard write (`pyperclip.copy`), the
save-file dialog being opened, and the output file write. -/
inductive Effect where
  | showError (title message : String) : Effect
  | clipboardCopy (text : String) : Effect
  | saveDialog : Effect
  | fileWrite (path contents : String) : Effect
deriving DecidableEq

/-- Widget-visible state of `Base64ConverterApp`: the `file_path`
StringVar, the `current_b64` attribute, the contents of the output text
widget, the enabled/disabled state of the three action buttons, and the
status label. -/
structure AppState where
  file_path : String
  current_b64 : String
  output_text : String
  convert_btn : Bool
  copy_btn : Bool
  save_btn : Bool
  status : Status
deriving DecidableEq

/-- State after `__init__`/`setup_ui`: empty path (line 25), empty
`current_b64` (line 26), empty text widget, all three action buttons
created with state="disabled" (lines 73-95), initial status (line 128). -/
def initState : AppState :=
  { file_path := "", current_b64 := "", output_text := "",
    convert_btn := false, copy_btn := false, save_btn := false,
    status := Status.initial }

/-- Embedding of `os.path.basename` for POSIX-style paths: the part
after the last slash. -/
def basename (p : String) : String :=
  (p.splitOn "/").getLastD ""

/-- Handler `browse_file` (lines 137-152).  The open-file dialog result
is an input: the empty string models a cancelled dialog (falsy in the
Python `if file_path:` test).  On a non-empty result, the path is
stored, the convert button enabled and the status updated; otherwise
nothing happens. -/
def browse_file (s : AppState) (dialogResult : String) : AppState :=
  if dialogResult ≠ "" then
    { s with file_path := dialogResult, convert_btn := true,
             status := Status.ready (basename dialogResult) }
  else s

/-- Handler `convert_file` (lines 154-173).  The attempt to open and
read `self.file_path` is an input: `Except.ok data` models a successful
read of bytes `data`, `Except.error e` a raised exception with message
`e`.  On success `current_b64` is set to the encoding (line 159), the
text widget is cleared and repopulated (lines 162-163), copy/save are
enabled (lines 166-167) and the status updated (line 170).  Any
exception is caught by the `try`/`except` and surfaced as a
`messagebox.showerror` (line 173), leaving the state untouched. -/
def convert_file (s : AppState) (readResult : Except String (List Nat)) :
    AppState × List Effect :=
  match readResult with
  | Except.ok data =>
      let b64 := b64encode data
      ({ s with current_b64 := b64, output_text := b64,
                copy_btn := true, save_btn := true,
                status := Status.converted data.length b64.length }, [])
  | Except.error e =>
      (s, [Effect.showError "Conversion Error" ("Failed to read file:\n" ++ e)])

/-- Handler `copy_to_clipboard` (lines 175-178): if `current_b64` is
non-empty (truthy), copy it to the clipboard and update the status;
otherwise do nothing. -/
def copy_to_clipboard (s : AppState) : AppState × List Effect :=
  if s.current_b64 ≠ "" then
    ({ s with status := Status.copied }, [Effect.clipboardCopy s.current_b64])
  else (s, [])

/-- Handler `save_base64` (lines 180-194).  If `current_b64` is empty it
returns at once (line 182).  Otherwise the save dialog opens; its result
is an input (empty string = cancelled).  On a chosen path the file write
is attempted; the write outcome is an input, and a raised exception is
caught and surfaced as a `messagebox.showerror` (line 194). -/
def save_base64 (s : AppState) (dialogResult : String)
    (writeResult : Except String Unit) : AppState × List Effect :=
  if s.current_b64 = "" then (s, [])
  else if dialogResult ≠ "" then
    match writeResult with
    | Except.ok _ =>
        ({ s with status := Status.saved (basename dialogResult) },
         [Effect.saveDialog, Effect.fileWrite dialogResult s.current_b64])
    | Except.error e =>
        (s, [Effect.saveDialog,
             Effect.showError "Save Error" ("Could not save file:\n" ++ e)])
  else (s, [Effect.saveDialog])

/-- User-driven events, each carrying the environment inputs its handler
consumes. -/
inductive Event where
  | browse (dialogResult : String) : Event
  | convert (readResult : Except String (List Nat)) : Event
  | copy : Event
  | save (dialogResult : String) (writeResult : Except String Unit) : Event

/-- One event step of the application. -/
def step (s : AppState) : Event → AppState × List Effect
  | Event.browse d => (browse_file s d, [])
  | Event.convert r => convert_file s r
  | Event.copy => copy_to_clipboard s
  | Event.save d w => save_base64 s d w

/-- State reached after a sequence of events from the initial state. -/
def run (events : List Event) : AppState :=
  events.foldl (fun s e => (step s e).1) initState

/-- Accumulator tracking the bytes of the most recent successful
conversion across one event. -/
def trackConvert (acc : Option (List Nat)) : Event → Option (List Nat)
  | Event.convert (Except.ok data) => some data
  | _ => acc

/-- Bytes of the most recent successful conversion in an event
sequence, if any. -/
def lastConvertSuccess (events : List Event) : Option (List Nat) :=
  events.foldl trackConvert none

theorem browse_file_current_b64 (s : AppState) (d : String) :
    (browse_file s d).current_b64 = s.current_b64 := by
  unfold browse_file; split <;> rfl

theorem browse_file_copy_save_output (s : AppState) (d : String) :
    (browse_file s d).output_text = s.output_text ∧
    (browse_file s d).copy_btn = s.copy_btn ∧
    (browse_file s d).save_btn = s.save_btn := by
  unfold browse_file; split <;> exact ⟨rfl, rfl, rfl⟩

theorem copy_to_clipboard_state (s : AppState) :
    (copy_to_clipboard s).1.current_b64 = s.current_b64 ∧
    (copy_to_clipboard s).1.file_path = s.file_path ∧
    (copy_to_clipboard s).1.output_text = s.output_text ∧
    (copy_to_clipboard s).1.convert_btn = s.convert_btn ∧
    (copy_to_clipboard s).1.copy_btn = s.copy_btn ∧
    (copy_to_clipboard s).1.save_btn = s.save_btn := by
  unfold copy_to_clipboard; split <;> exact ⟨rfl, rfl, rfl, rfl, rfl, rfl⟩

theorem save_base64_state (s : AppState) (d : String) (w : Except String Unit) :
    (save_base64 s d w).1.current_b64 = s.current_b64 ∧
    (save_base64 s d w).1.file_path = s.file_path ∧
    (save_base64 s d w).1.output_text = s.output_text ∧
    (save_base64 s d w).1.convert_btn = s.convert_btn ∧
    (save_base64 s d w).1.copy_btn = s.copy_btn ∧
    (save_base64 s d w).1.save_btn = s.save_btn := by
  unfold save_base64
  split
  · exact ⟨rfl, rfl, rfl, rfl, rfl, rfl⟩
  · split
    · cases w <;> exact ⟨rfl, rfl, rfl, rfl, rfl, rfl⟩
    · exact ⟨rfl, rfl, rfl, rfl, rfl, rfl⟩

/-- Invariant for the data-model claim: the stored text is empty or is
the encoding of the tracked most recent successful conversion. -/
def b64Inv (s : AppState) (acc : Option (List Nat)) : Prop :=
  s.current_b64 = "" ∨
    ∃ data, acc = some data ∧ s.current_b64 = b64encode data

theorem b64Inv_step (s : AppState) (acc : Option (List Nat)) (e : Event)
    (h : b64Inv s acc) : b64Inv (step s e).1 (trackConvert acc e) := by
  cases e with
  | browse d =>
      unfold b64Inv at h ⊢
      rw [show (step s (Event.browse d)).1 = browse_file s d from rfl,
          browse_file_current_b64]
      exact h
  | convert r =>
      cases r with
      | ok data =>
          exact Or.inr ⟨data, rfl, rfl⟩
      | error e => exact h
  | copy =>
      unfold b64Inv at h ⊢
      rw [show (step s Event.copy).1 = (copy_to_clipboard s).1 from rfl,
          (copy_to_clipboard_state s).1]
      exact h
  | save d w =>
      unfold b64Inv at h ⊢
      rw [show (step s (Event.save d w)).1 = (save_base64 s d w).1 from rfl,
          (save_base64_state s d w).1]
      exact h

theorem b64Inv_foldl (es : List Event) :
    ∀ (s : AppState) (acc : Option (List Nat)), b64Inv s acc →
      b64Inv (es.foldl (fun s e => (step s e).1) s) (es.foldl trackConvert acc) := by
  induction es with
  | nil => intro s acc h; simpa using h
  | cons e es ih =>
      intro s acc h
      simp only [List.foldl_cons]
      exact ih _ _ (b64Inv_step s acc e h)

/-- Invariant for the temporal claim: the convert button is enabled only
when a file path has been stored. -/
def convertBtnInv (s : AppState) : Prop :=
  s.convert_btn = true → s.file_path ≠ ""

theorem convertBtnInv_step (s : AppState) (e : Event) (h : convertBtnInv s) :
    convertBtnInv (step s e).1 := by
  cases e with
  | browse d =>
      show convertBtnInv (browse_file s d)
      unfold convertBtnInv browse_file at *
      split
      · rename_i hd
        intro _
        simpa using hd
      · exact h
  | convert r =>
      cases r with
      | ok data => exact h
      | error e => exact h
  | copy =>
      unfold convertBtnInv at *
      rw [show (step s Event.copy).1 = (copy_to_clipboard s).1 from rfl,
          (copy_to_clipboard_state s).2.1, (copy_to_clipboard_state s).2.2.2.1]
      exact h
  | save d w =>
      unfold convertBtnInv at *
      rw [show (step s (Event.save d w)).1 = (save_base64 s d w).1 from rfl,
          (save_base64_state s d w).2.1, (save_base64_state s d w).2.2.2.1]
      exact h

theorem convertBtnInv_foldl (es : List Event) :
    ∀ s : AppState, convertBtnInv s →
      convertBtnInv (es.foldl (fun s e => (step s e).1) s) := by
  induction es with
  | nil => intro s h; simpa using h
  | cons e es ih =>
      intro s h
      simp only [List.foldl_cons]
      exact ih _ (convertBtnInv_step s e h)

/-- C1: for every file whose bytes are read successfully, a successful
`convert_file` sets the stored encoded string `current_b64` to exactly
the standard Base64 encoding of those bytes rendered as UTF-8 text
(read all bytes, encode, display). -/
theorem convert_file_sets_encoding (s : AppState) (data : List Nat) :
    (convert_file s (Except.ok data)).1.current_b64 = b64encode data :=
  rfl

/-- C2: in every reachable state of the application (after any sequence
of browse, convert — successful or failing —, copy and save events),
the stored encoded text is either the empty string or the Base64
encoding of the bytes of the most recently successfully converted
file. -/
theorem reachable_b64_empty_or_encoding (events : List Event) :
    (run events).current_b64 = "" ∨
      ∃ data, lastConvertSuccess events = some data ∧
        (run events).current_b64 = b64encode data :=
  b64Inv_foldl events initState none (Or.inl rfl)

/-- C3: after every successful conversion the text display contains
exactly the stored encoded string, and the copy and save controls are
enabled. -/
theorem convert_file_display_and_buttons (s : AppState) (data : List Nat) :
    (convert_file s (Except.ok data)).1.output_text
        = (convert_file s (Except.ok data)).1.current_b64 ∧
    (convert_file s (Except.ok data)).1.copy_btn = true ∧
    (convert_file s (Except.ok data)).1.save_btn = true :=
  ⟨rfl, rfl, rfl⟩

/-- C4: for every state (and any save-dialog and write outcome),
`copy_to_clipboard` and `save_base64` leave the stored encoded string,
the file path, and all three button states unchanged — each action is
stateless beyond the one stored encoded string, which only convert
replaces.  (The status-bar label is the one field either handler does
update.) -/
theorem copy_save_frame (s : AppState) (d : String) (w : Except String Unit) :
    ((copy_to_clipboard s).1.current_b64 = s.current_b64 ∧
     (copy_to_clipboard s).1.file_path = s.file_path ∧
     (copy_to_clipboard s).1.convert_btn = s.convert_btn ∧
     (copy_to_clipboard s).1.copy_btn = s.copy_btn ∧
     (copy_to_clipboard s).1.save_btn = s.save_btn) ∧
    ((save_base64 s d w).1.current_b64 = s.current_b64 ∧
     (save_base64 s d w).1.file_path = s.file_path ∧
     (save_base64 s d w).1.convert_btn = s.convert_btn ∧
     (save_base64 s d w).1.copy_btn = s.copy_btn ∧
     (save_base64 s d w).1.save_btn = s.save_btn) :=
  ⟨⟨(copy_to_clipboard_state s).1, (copy_to_clipboard_state s).2.1,
    (copy_to_clipboard_state s).2.2.2.1, (copy_to_clipboard_state s).2.2.2.2.1,
    (copy_to_clipboard_state s).2.2.2.2.2⟩,
   ⟨(save_base64_state s d w).1, (save_base64_state s d w).2.1,
    (save_base64_state s d w).2.2.2.1, (save_base64_state s d w).2.2.2.2.1,
    (save_base64_state s d w).2.2.2.2.2⟩⟩

/-- C5: every failure of the convert and save operations is caught
inside the operation and surfaced only as a displayed error message box,
the state is returned unchanged, and (the handlers being total
functions) no exception propagates to the caller.  The convert part
holds in every state; the save part is stated for the states in which a
write is attempted at all (non-empty stored string, dialog confirmed),
since otherwise the source never reaches the write. -/
theorem handlers_surface_errors :
    (∀ (s : AppState) (e : String),
        convert_file s (Except.error e) =
          (s, [Effect.showError "Conversion Error" ("Failed to read file:\n" ++ e)])) ∧
    (∀ (s : AppState) (e d : String), s.current_b64 ≠ "" → d ≠ "" →
        save_base64 s d (Except.error e) =
          (s, [Effect.saveDialog,
               Effect.showError "Save Error" ("Could not save file:\n" ++ e)])) := by
  refine ⟨fun s e => rfl, fun s e d hb hd => ?_⟩
  unfold save_base64
  rw [if_neg hb, if_pos hd]

theorem handlers_surface_errors_witness :
    convert_file initState (Except.error "boom") =
      (initState,
       [Effect.showError "Conversion Error" ("Failed to read file:\n" ++ "boom")]) ∧
    save_base64 { initState with current_b64 := "QQ==" } "/tmp/out.txt"
        (Except.error "boom") =
      ({ initState with current_b64 := "QQ==" },
       [Effect.saveDialog,
        Effect.showError "Save Error" ("Could not save file:\n" ++ "boom")]) :=
  ⟨handlers_surface_errors.1 initState "boom",
   handlers_surface_errors.2 { initState with current_b64 := "QQ==" } "boom"
     "/tmp/out.txt" (by decide) (by decide)⟩

/-- C6: after `browse_file` returns a non-empty path the convert button
is enabled, and in every reachable state the convert button is enabled
only if the file-path field is non-empty. -/
theorem browse_enables_convert :
    (∀ (s : AppState) (d : String), d ≠ "" → (browse_file s d).convert_btn = true) ∧
    (∀ events : List Event,
        (run events).convert_btn = true → (run events).file_path ≠ "") := by
  constructor
  · intro s d hd
    unfold browse_file
    rw [if_pos hd]
  · intro events
    exact convertBtnInv_foldl events initState (fun hb => absurd hb (by simp [initState]))

theorem browse_enables_convert_witness :
    (browse_file initState "/tmp/a.txt").convert_btn = true ∧
    (run [Event.browse "/tmp/a.txt"]).file_path ≠ "" :=
  ⟨browse_enables_convert.1 initState "/tmp/a.txt" (by decide),
   browse_enables_convert.2 [Event.browse "/tmp/a.txt"] (by decide)⟩

/-- C7: the result of a successful conversion depends only on the bytes
read, never on the previous state: converting the same bytes from any
two prior states yields the same stored encoded string and the same
display contents. -/
theorem convert_independent_of_history (s1 s2 : AppState) (data : List Nat) :
    (convert_file s1 (Except.ok data)).1.current_b64
        = (convert_file s2 (Except.ok data)).1.current_b64 ∧
    (convert_file s1 (Except.ok data)).1.output_text
        = (convert_file s2 (Except.ok data)).1.output_text :=
  ⟨rfl, rfl⟩

/-- C8: if the read raises before the encoding is assigned, the caught
failure leaves the stored encoded string, the display contents and the
copy/save button states unchanged — conversion is atomic on error (the
whole state is returned untouched). -/
theorem convert_file_error_frame (s : AppState) (e : String) :
    (convert_file s (Except.error e)).1.current_b64 = s.current_b64 ∧
    (convert_file s (Except.error e)).1.output_text = s.output_text ∧
    (convert_file s (Except.error e)).1.copy_btn = s.copy_btn ∧
    (convert_file s (Except.error e)).1.save_btn = s.save_btn :=
  ⟨rfl, rfl, rfl, rfl⟩

/-- C9: when the stored encoded string is empty, `copy_to_clipboard`
performs no clipboard write and no status update, and `save_base64`
returns immediately without opening the save dialog or writing any
file: the returned state is unchanged and the effect list is empty. -/
theorem empty_b64_noops (s : AppState) (h : s.current_b64 = "") (d : String)
    (w : Except String Unit) :
    copy_to_clipboard s = (s, []) ∧ save_base64 s d w = (s, []) := by
  constructor
  · unfold copy_to_clipboard
    rw [if_neg (by simp [h])]
  · unfold save_base64
    rw [if_pos h]

theorem empty_b64_noops_witness :
    copy_to_clipboard initState = (initState, []) ∧
    save_base64 initState "/tmp/x.txt" (Except.ok ()) = (initState, []) :=
  empty_b64_noops initState rfl "/tmp/x.txt" (Except.ok ())

/-- C10: the stored encoded string round-trips — standard Base64
decoding of the string produced by a successful `convert_file` recovers
exactly the bytes that were read. -/
theorem convert_file_roundtrip (s : AppState) (data : List Nat)
    (h : ∀ x ∈ data, x < 256) :
    b64decode ((convert_file s (Except.ok data)).1.current_b64) = some data :=
  b64decode_b64encode data h

theorem convert_file_roundtrip_witness :
    b64decode ((convert_file initState (Except.ok [72, 105, 33])).1.current_b64)
      = some [72, 105, 33] :=
  convert_file_roundtrip initState [72, 105, 33] (by decide)

end Base64Converter
